import Mathlib

/-!
Shallow embedding of the request/response translation core of the
rag_superbot_litellm_v3_psych proxy (files fastapi_server.py and
simple_server.py), together with theorems settling the spec claims.

The embedding models the JSON values exchanged with the upstream
"1minAI" API, the prompt construction, the model-alias lookup, the
response normalization, and the per-request control flow of the two
HTTP handlers.  Network effects are represented by an explicit
oracle argument describing the outcome of the single upstream call,
and the wall clock by an explicit natural-number timestamp argument.
-/

namespace Superbot

/-- JSON values as decoded by Python's json module.  Numbers are
modelled as integers (no claim depends on float formatting). -/
inductive Json where
  | null : Json
  | bool (b : Bool) : Json
  | num (n : Int) : Json
  | str (s : String) : Json
  | arr (elems : List Json) : Json
  | obj (fields : List (String × Json)) : Json

/-- A single quote character, as used by Python's repr of strings. -/
def squote : String := "\x27"

mutual

/-- Python repr of a json-decoded value (string escaping elided;
no claim evaluates repr on strings needing escapes). -/
def pyRepr : Json → String
  | .null => "None"
  | .bool b => if b then "True" else "False"
  | .num n => toString n
  | .str s => squote ++ s ++ squote
  | .arr xs => "[" ++ pyReprArr xs ++ "]"
  | .obj kvs => "\x7b" ++ pyReprObj kvs ++ "\x7d"

/-- Comma-separated reprs of the elements of a Python list. -/
def pyReprArr : List Json → String
  | [] => ""
  | [x] => pyRepr x
  | x :: y :: xs => pyRepr x ++ ", " ++ pyReprArr (y :: xs)

/-- Comma-separated reprs of the entries of a Python dict. -/
def pyReprObj : List (String × Json) → String
  | [] => ""
  | [(k, v)] => squote ++ k ++ squote ++ ": " ++ pyRepr v
  | (k, v) :: y :: xs => squote ++ k ++ squote ++ ": " ++ pyRepr v ++ ", " ++ pyReprObj (y :: xs)

end

/-- Python str() of a json-decoded value: the string itself for
strings, repr for every other decoded type. -/
def pyStr : Json → String
  | .str s => s
  | j => pyRepr j

/-- Python dict.get(key, default) applied to a decoded JSON value:
on a dict it returns the stored value or the default, on any other
value it raises AttributeError (there is no .get attribute). -/
def dictGet (j : Json) (key : String) (dflt : Json) : Except String Json :=
  match j with
  | .obj fields =>
      .ok (((fields.find? (fun p => p.1 == key)).map (fun p => p.2)).getD dflt)
  | _ => .error "object has no attribute get"

/-- Response-text extraction shared verbatim by both servers
(fastapi_server.py lines 156-165, simple_server.py lines 100-111):
navigate aiRecord.aiRecordDetail.resultObject with empty defaults,
then take str of the first element of a non-empty list, else the
fixed literal. -/
def extractResponseText (result : Json) : Except String String := do
  let aiRecord ← dictGet result "aiRecord" (.obj [])
  let aiRecordDetail ← dictGet aiRecord "aiRecordDetail" (.obj [])
  let resultObject ← dictGet aiRecordDetail "resultObject" (.arr [])
  match resultObject with
  | .arr (x :: _) => pure (pyStr x)
  | _ => pure "No response generated"

/-- Whitespace test matching Python str.split() with no arguments
(ASCII whitespace; the unicode cases are irrelevant to the claims). -/
def isPyWhitespace (c : Char) : Bool :=
  c = ' ' || c = '\t' || c = '\n' || c = '\r' || c = '\x0b' || c = '\x0c'

/-- Accumulator pass over the characters for whitespace splitting:
acc holds the reversed characters of the token being read. -/
def pySplitAux : List Char → List Char → List String
  | [], acc => if acc = [] then [] else [String.mk acc.reverse]
  | c :: cs, acc =>
      if isPyWhitespace c then
        if acc = [] then pySplitAux cs []
        else String.mk acc.reverse :: pySplitAux cs []
      else pySplitAux cs (c :: acc)

/-- Python s.split() with no arguments: the maximal whitespace-free
runs of s, in order (empty fields never occur). -/
def pySplit (s : String) : List String :=
  pySplitAux s.data []

/-- len(s.split()) as used for the usage token counts. -/
def countTokens (s : String) : Nat := (pySplit s).length

/-- A chat message as validated by the FastAPI server's pydantic
model: both fields required strings. -/
structure ChatMessage where
  role : String
  content : String
deriving Repr, DecidableEq

/-- One rendered prompt line (fastapi_server.py lines 89-97): the
role selects the label, any unrecognized role rendering as User. -/
def renderMessage (msg : ChatMessage) : String :=
  if msg.role = "system" then "System: " ++ msg.content
  else if msg.role = "assistant" then "Assistant: " ++ msg.content
  else "User: " ++ msg.content

/-- Python sep.join(parts). -/
def joinSep (sep : String) : List String → String
  | [] => ""
  | [x] => x
  | x :: y :: xs => x ++ sep ++ joinSep sep (y :: xs)

/-- The constructed prompt (fastapi_server.py line 99): rendered
messages joined by a blank-line separator. -/
def buildPrompt (messages : List ChatMessage) : String :=
  joinSep "\n\n" (messages.map renderMessage)

/-- Number of newline-separated lines of a string (one more than the
number of newline characters; how Python splitlines counts a
newline-terminated-free text). -/
def lineCount (s : String) : Nat := s.data.count '\n' + 1

/-- The static model_mapping dict of fastapi_server.py lines 102-115. -/
def model_mapping : List (String × String) :=
  [("1minai-gpt-4o-mini", "gpt-4o-mini"),
   ("1minai-gpt-4o", "gpt-4o"),
   ("1minai-claude-3-5-sonnet", "claude-3-5-sonnet"),
   ("1minai-claude-3-haiku", "claude-3-haiku"),
   ("gpt-4o-mini", "gpt-4o-mini"),
   ("gpt-4o", "gpt-4o"),
   ("claude-3-5-sonnet", "claude-3-5-sonnet"),
   ("claude-3-haiku", "claude-3-haiku"),
   ("gemini-2.0-flash-lite", "gemini-2.0-flash-lite"),
   ("gemini-2.0-flash", "gemini-2.0-flash"),
   ("gemini-1.5-flash", "gemini-1.5-flash"),
   ("gemini-1.5-pro", "gemini-1.5-pro")]

/-- The static model_mapping dict of simple_server.py lines 51-60. -/
def model_mapping_simple : List (String × String) :=
  [("gemini-2.0-flash-lite", "gemini-2.0-flash-lite"),
   ("gemini-2.0-flash", "gemini-2.0-flash"),
   ("gemini-1.5-flash", "gemini-1.5-flash"),
   ("gemini-1.5-pro", "gemini-1.5-pro"),
   ("gpt-4o-mini", "gpt-4o-mini"),
   ("gpt-4o", "gpt-4o"),
   ("claude-3-5-sonnet", "claude-3-5-sonnet"),
   ("claude-3-haiku", "claude-3-haiku")]

/-- Python table.get(model, default) on an association list. -/
def tableGetD (table : List (String × String)) (model dflt : String) : String :=
  (((table.find? (fun p => p.1 == model)).map (fun p => p.2)).getD dflt)

/-- model_mapping.get(model, "gemini-2.0-flash-lite") in
fastapi_server.py line 118. -/
def mappedModel (model : String) : String :=
  tableGetD model_mapping model "gemini-2.0-flash-lite"

/-- model_mapping.get(model, "gemini-2.0-flash-lite") in
simple_server.py line 62. -/
def mappedModelSimple (model : String) : String :=
  tableGetD model_mapping_simple model "gemini-2.0-flash-lite"

/-- The promptObject part of the provider payload. -/
structure PromptObject where
  prompt : String
  isMixed : Bool
  webSearch : Bool
deriving Repr, DecidableEq

/-- The outbound 1minAI payload (fastapi_server.py lines 121-129,
simple_server.py lines 65-73). -/
structure ProviderPayload where
  type : String
  model : String
  promptObject : PromptObject
deriving Repr, DecidableEq

/-- Payload construction of the FastAPI server. -/
def buildPayload (messages : List ChatMessage) (model : String) : ProviderPayload :=
  { type := "CHAT_WITH_AI"
    model := mappedModel model
    promptObject := { prompt := buildPrompt messages, isMixed := false, webSearch := false } }

/-- Usage block of an OpenAI-shaped chat completion response. -/
structure Usage where
  prompt_tokens : Nat
  completion_tokens : Nat
  total_tokens : Nat
deriving Repr, DecidableEq

/-- The message inside a choice. -/
structure ChoiceMessage where
  role : String
  content : String
deriving Repr, DecidableEq

/-- One choice of an OpenAI-shaped chat completion response. -/
structure Choice where
  index : Nat
  message : ChoiceMessage
  finish_reason : String
deriving Repr, DecidableEq

/-- OpenAI-shaped chat completion response envelope. -/
structure ChatCompletionResponse where
  id : String
  object : String
  created : Nat
  model : String
  choices : List Choice
  usage : Usage
deriving Repr, DecidableEq

/-- An HTTPException raised by the FastAPI server. -/
structure HTTPExc where
  status_code : Nat
  detail : String
deriving Repr, DecidableEq

/-- Outcome of the single upstream HTTP round trip in the body of
the FastAPI server's make_1minai_request as written (lines 142-209):
a 200 body, a non-200 status with body text, an aiohttp client
error, or any other exception (timeout included).  In the real
module these outcomes are all unreachable, because the name aiohttp
is never imported (the file imports httpx instead); the run version
below models what the module actually does. -/
inductive UpstreamResult where
  | success (body : Json) : UpstreamResult
  | httpError (status : Nat) (text : String) : UpstreamResult
  | connError (msg : String) : UpstreamResult
  | otherError (msg : String) : UpstreamResult

/-- A Python exception escaping make_1minai_request: either a
FastAPI HTTPException, or the raw NameError raised because the name
aiohttp is unbound in fastapi_server.py. -/
inductive PyExc where
  | httpException (e : HTTPExc) : PyExc
  | nameError (msg : String) : PyExc
deriving Repr, DecidableEq

/-- Python str() of a FastAPI HTTPException, per starlette's
HTTPException.__str__: the status code, a colon and the detail. -/
def httpExcStr (e : HTTPExc) : String :=
  toString e.status_code ++ ": " ++ e.detail

/-- The body of make_1minai_request of fastapi_server.py lines
77-209 as written, conditional on the client round trip executing:
credential check, prompt and payload construction, upstream call,
response normalization to the OpenAI shape.  The now argument stands
for int(time.time()).  The non-200 HTTPException raised at line 194
sits inside the try block, so it is re-caught by the except
Exception clause at line 204 and rewrapped as a 500 Internal error
embedding str() of the original exception; the 503 raised inside the
except aiohttp.ClientError handler propagates as raised. -/
def make_1minai_request (apiKey : Option String) (messages : List ChatMessage)
    (model : String) (now : Nat) (upstream : UpstreamResult) :
    Except HTTPExc ChatCompletionResponse :=
  match apiKey with
  | none => .error { status_code := 500, detail := "ONEMINAI_API_KEY not configured" }
  | some _ =>
    match upstream with
    | .success body =>
      match extractResponseText body with
      | .ok response_text =>
          let prompt := buildPrompt messages
          .ok { id := "chatcmpl-" ++ toString now
                object := "chat.completion"
                created := now
                model := model
                choices := [{ index := 0
                              message := { role := "assistant", content := response_text }
                              finish_reason := "stop" }]
                usage := { prompt_tokens := countTokens prompt
                           completion_tokens := countTokens response_text
                           total_tokens := countTokens prompt + countTokens response_text } }
      | .error e => .error { status_code := 500, detail := "Internal error: " ++ e }
    | .httpError status text =>
        .error { status_code := 500
                 detail := "Internal error: "
                   ++ httpExcStr { status_code := status
                                   detail := "1minAI API error: " ++ text } }
    | .connError msg =>
        .error { status_code := 503, detail := "1minAI API connection failed: " ++ msg }
    | .otherError msg =>
        .error { status_code := 500, detail := "Internal error: " ++ msg }

/-- What make_1minai_request of fastapi_server.py actually does when
the module runs: the credential check at lines 81-85 and the
translation at lines 88-134 execute, then line 142 evaluates the
unbound name aiohttp and raises NameError; evaluating the except
aiohttp.ClientError clause raises NameError again, which escapes the
function uncaught, so no upstream call is ever made and the written
response handling is dead code. -/
def make_1minai_request_run (apiKey : Option String) (messages : List ChatMessage)
    (model : String) : Except PyExc ChatCompletionResponse :=
  match apiKey with
  | none =>
      .error (.httpException { status_code := 500, detail := "ONEMINAI_API_KEY not configured" })
  | some _ =>
      let _payload := buildPayload messages model
      .error (.nameError "name \x27aiohttp\x27 is not defined")

/-- The inbound chat completion request after pydantic validation
(temperature, max_tokens and stream are accepted but never used by
the translation, so they are omitted from the embedding). -/
structure ChatCompletionRequest where
  model : String
  messages : List ChatMessage
deriving Repr, DecidableEq

/-- chat_completions of fastapi_server.py lines 288-392, parametric
in what make_1minai_request does: the credential check at line 295,
the rewrapped success response, the first fallback (lines 329-356)
substituted for an HTTPException escaping make_1minai_request, and
the second fallback (lines 358-382) substituted for any other
exception, its content embedding str() of that exception.  An error
value is an HTTPException propagated to the framework (only the
credential check produces one). -/
def chat_completions_core (apiKey : Option String) (req : ChatCompletionRequest)
    (now : Nat) (mk : Except PyExc ChatCompletionResponse) :
    Except HTTPExc ChatCompletionResponse :=
  match apiKey with
  | none => .error { status_code := 500, detail := "ONEMINAI_API_KEY not configured" }
  | some _ =>
    match mk with
    | .ok result =>
        .ok { id := result.id
              object := "chat.completion"
              created := result.created
              model := result.model
              choices := result.choices
              usage := result.usage }
    | .error (.httpException e) =>
        .ok { id := "chatcmpl-" ++ toString now
              object := "chat.completion"
              created := now
              model := req.model
              choices := [{ index := 0
                            message := { role := "assistant"
                                         content := "1minAI API is currently unavailable (Error: "
                                           ++ e.detail ++ "). Please check the API configuration." }
                            finish_reason := "stop" }]
              usage := { prompt_tokens := 10, completion_tokens := 20, total_tokens := 30 } }
    | .error (.nameError m) =>
        .ok { id := "chatcmpl-" ++ toString now
              object := "chat.completion"
              created := now
              model := req.model
              choices := [{ index := 0
                            message := { role := "assistant"
                                         content := "Error processing request: " ++ m }
                            finish_reason := "stop" }]
              usage := { prompt_tokens := 10, completion_tokens := 20, total_tokens := 30 } }

/-- The endpoint composed with make_1minai_request as written
(conditional on the client round trip executing, which only raises
HTTPExceptions). -/
def chat_completions (apiKey : Option String) (req : ChatCompletionRequest)
    (now : Nat) (upstream : UpstreamResult) :
    Except HTTPExc ChatCompletionResponse :=
  chat_completions_core apiKey req now
    (match make_1minai_request apiKey req.messages req.model now upstream with
     | .ok r => .ok r
     | .error e => .error (.httpException e))

/-- The endpoint composed with what make_1minai_request actually
does in the running module: with a credential present the NameError
from the unbound aiohttp name is not an HTTPException, so the
handler takes the second fallback for every such request. -/
def chat_completions_run (apiKey : Option String) (req : ChatCompletionRequest)
    (now : Nat) : Except HTTPExc ChatCompletionResponse :=
  chat_completions_core apiKey req now
    (make_1minai_request_run apiKey req.messages req.model)

/-- A chat message as the standard-library server sees it: a JSON
dict that may lack either key (simple_server.py lines 39-40 read
both with defaults). -/
structure SimpleMsg where
  role : Option String
  content : Option String
deriving Repr, DecidableEq

/-- msg.get("role", "user") of simple_server.py line 39. -/
def simpleRole (m : SimpleMsg) : String := m.role.getD "user"

/-- msg.get("content", "") of simple_server.py line 40. -/
def simpleContent (m : SimpleMsg) : String := m.content.getD ""

/-- One rendered prompt line of simple_server.py lines 41-46. -/
def renderSimpleMessage (m : SimpleMsg) : String :=
  if simpleRole m = "system" then "System: " ++ simpleContent m
  else if simpleRole m = "assistant" then "Assistant: " ++ simpleContent m
  else "User: " ++ simpleContent m

/-- The constructed prompt of simple_server.py line 48. -/
def buildPromptSimple (messages : List SimpleMsg) : String :=
  joinSep "\n\n" (messages.map renderSimpleMessage)

/-- Payload construction of the standard-library server
(simple_server.py lines 62-73). -/
def buildPayloadSimple (messages : List SimpleMsg) (model : String) : ProviderPayload :=
  { type := "CHAT_WITH_AI"
    model := mappedModelSimple model
    promptObject := { prompt := buildPromptSimple messages, isMixed := false, webSearch := false } }

/-- Outcome of the urllib round trip in simple_server.py as observed
by its try block: a 200 body, a non-200 status reached inside the
with block, urllib.error.HTTPError, urllib.error.URLError, or any
other exception. -/
inductive SimpleUpstream where
  | ok200 (body : Json) : SimpleUpstream
  | non200 (status : Nat) (text : String) : SimpleUpstream
  | httpErr (code : Nat) (body : String) : SimpleUpstream
  | urlErr (msg : String) : SimpleUpstream
  | otherErr (msg : String) : SimpleUpstream

/-- make_1minai_request of simple_server.py lines 31-126: credential
check (raises, modelled as the error case), prompt and payload
construction, upstream call, and conversion of every failure into a
fallback content string returned in place of the answer. -/
def simple_make_1minai_request (apiKey : Option String) (messages : List SimpleMsg)
    (model : String) (upstream : SimpleUpstream) : Except String String :=
  match apiKey with
  | none => .error "ONEMINAI_API_KEY not configured"
  | some _ =>
    let _payload := buildPayloadSimple messages model
    match upstream with
    | .ok200 body =>
        match extractResponseText body with
        | .ok response_text => .ok response_text
        | .error _ => .ok "I encountered an unexpected error. Please try again later."
    | .non200 _ _ =>
        .ok "I\x27m experiencing technical difficulties. Please try again later."
    | .httpErr code _ =>
        .ok ("1minAI API is currently unavailable (Error: " ++ toString code
          ++ "). Please check the API configuration.")
    | .urlErr _ =>
        .ok "I\x27m currently unable to connect to my AI service. Please try again later."
    | .otherErr _ =>
        .ok "I encountered an unexpected error. Please try again later."

/-- The parsed POST body of the standard-library server: both fields
read with .get defaults (simple_server.py lines 236-237). -/
structure SimpleRequest where
  messages : List SimpleMsg
  model : Option String
deriving Repr, DecidableEq

/-- sum(len(msg.get("content", "").split()) for msg in messages)
(simple_server.py lines 264 and 266). -/
def promptTokensSum (messages : List SimpleMsg) : Nat :=
  (messages.map (fun m => countTokens (simpleContent m))).sum

/-- do_POST of simple_server.py lines 228-308 on a parsed completion
request: empty-messages validation, the upstream round trip, and the
OpenAI-shaped success or error body; the result pairs the HTTP
status with the emitted response. -/
def simple_do_POST (apiKey : Option String) (req : SimpleRequest) (now : Nat)
    (upstream : SimpleUpstream) : Nat × ChatCompletionResponse :=
  let model := req.model.getD "gemini-2.0-flash-lite"
  match req.messages with
  | [] =>
      (500, { id := "chatcmpl-" ++ toString now
              object := "chat.completion"
              created := now
              model := model
              choices := [{ index := 0
                            message := { role := "assistant"
                                         content := "I apologize, but I encountered an error: "
                                           ++ "Messages array is required" ++ ". Please try again." }
                            finish_reason := "stop" }]
              usage := { prompt_tokens := 10, completion_tokens := 20, total_tokens := 30 } })
  | _ :: _ =>
    match simple_make_1minai_request apiKey req.messages model upstream with
    | .ok ai_response =>
        (200, { id := "chatcmpl-" ++ toString now
                object := "chat.completion"
                created := now
                model := model
                choices := [{ index := 0
                              message := { role := "assistant", content := ai_response }
                              finish_reason := "stop" }]
                usage := { prompt_tokens := promptTokensSum req.messages
                           completion_tokens := countTokens ai_response
                           total_tokens := promptTokensSum req.messages + countTokens ai_response } })
    | .error e =>
        (500, { id := "chatcmpl-" ++ toString now
                object := "chat.completion"
                created := now
                model := model
                choices := [{ index := 0
                              message := { role := "assistant"
                                           content := "I apologize, but I encountered an error: "
                                             ++ e ++ ". Please try again." }
                              finish_reason := "stop" }]
                usage := { prompt_tokens := 10, completion_tokens := 20, total_tokens := 30 } })

/-- One entry of the models listing. -/
structure ModelEntry where
  id : String
  object : String
  created : Nat
  owned_by : String
deriving Repr, DecidableEq

/-- The identifying fields of a model entry, everything except the
call-time created stamp. -/
def stripCreated (e : ModelEntry) : String × String × String :=
  (e.id, e.object, e.owned_by)

/-- get_1minai_models of fastapi_server.py lines 211-272: empty when
the credential is absent, otherwise the static eight-model list with
each created field set to the call-time clock. -/
def get_1minai_models (apiKey : Option String) (now : Nat) : List ModelEntry :=
  match apiKey with
  | none => []
  | some _ =>
      [{ id := "gemini-2.0-flash-lite", object := "model", created := now, owned_by := "1minai" },
       { id := "gemini-2.0-flash", object := "model", created := now, owned_by := "1minai" },
       { id := "gemini-1.5-flash", object := "model", created := now, owned_by := "1minai" },
       { id := "gemini-1.5-pro", object := "model", created := now, owned_by := "1minai" },
       { id := "gpt-4o-mini", object := "model", created := now, owned_by := "1minai" },
       { id := "gpt-4o", object := "model", created := now, owned_by := "1minai" },
       { id := "claude-3-5-sonnet", object := "model", created := now, owned_by := "1minai" },
       { id := "claude-3-haiku", object := "model", created := now, owned_by := "1minai" }]

/-- list_models of fastapi_server.py lines 394-435: the data list of
the returned envelope, degrading to the single-entry fallback when
get_1minai_models returns the empty list. -/
def list_models (apiKey : Option String) (now : Nat) : List ModelEntry :=
  match get_1minai_models apiKey now with
  | [] => [{ id := "gpt-4o-mini", object := "model", created := now, owned_by := "1minai" }]
  | models => models

/-- The data list served for GET /v1/models by simple_server.py
lines 145-203: the same static eight entries, stamped with the
call-time clock, with no credential check. -/
def simple_models_data (now : Nat) : List ModelEntry :=
  [{ id := "gemini-2.0-flash-lite", object := "model", created := now, owned_by := "1minai" },
   { id := "gemini-2.0-flash", object := "model", created := now, owned_by := "1minai" },
   { id := "gemini-1.5-flash", object := "model", created := now, owned_by := "1minai" },
   { id := "gemini-1.5-pro", object := "model", created := now, owned_by := "1minai" },
   { id := "gpt-4o-mini", object := "model", created := now, owned_by := "1minai" },
   { id := "gpt-4o", object := "model", created := now, owned_by := "1minai" },
   { id := "claude-3-5-sonnet", object := "model", created := now, owned_by := "1minai" },
   { id := "claude-3-haiku", object := "model", created := now, owned_by := "1minai" }]

/-- Outcome of the Request Translator portion of a handler: the
validation and payload construction that precede the upstream call. -/
inductive TranslateOutcome where
  | invalidRequest : TranslateOutcome
  | configurationError : TranslateOutcome
  | translated (payload : ProviderPayload) : TranslateOutcome
deriving Repr, DecidableEq

/-- Whether a translation outcome reached a payload. -/
def TranslateOutcome.isTranslated : TranslateOutcome → Bool
  | .translated _ => true
  | _ => false

/-- The translation phase of the standard-library server: do_POST
checks for an empty messages list first (simple_server.py lines
239-240), then make_1minai_request checks the credential
(lines 33-34) before building the payload (lines 37-73). -/
def simpleTranslate (apiKey : Option String) (req : SimpleRequest) : TranslateOutcome :=
  match req.messages with
  | [] => .invalidRequest
  | _ :: _ =>
    match apiKey with
    | none => .configurationError
    | some _ =>
        .translated (buildPayloadSimple req.messages (req.model.getD "gemini-2.0-flash-lite"))

/-- The translation phase of the FastAPI server: make_1minai_request
checks only the credential (fastapi_server.py lines 81-85) before
building the payload (lines 88-129); there is no emptiness check. -/
def fastapiTranslate (apiKey : Option String) (messages : List ChatMessage)
    (model : String) : TranslateOutcome :=
  match apiKey with
  | none => .configurationError
  | some _ => .translated (buildPayload messages model)

/-- Modelled from the spec (section 4.2): navigation of the
aiRecord.aiRecordDetail.resultObject path in which a missing
intermediate is treated as an empty object; used as the comparison
point for the extraction code. -/
def specFieldD (j : Json) (key : String) : Json :=
  match j with
  | .obj fields => ((fields.find? (fun p => p.1 == key)).map (fun p => p.2)).getD (.obj [])
  | _ => .obj []

/-- Modelled from the spec (section 4.2): the normalized content is
the string form of the first element when the path yields a
non-empty ordered sequence, and the fixed literal otherwise. -/
def specContent (body : Json) : String :=
  match specFieldD (specFieldD body "aiRecord") "aiRecordDetail" with
  | .obj fields =>
      match ((fields.find? (fun p => p.1 == "resultObject")).map (fun p => p.2)).getD (.arr []) with
      | .arr (x :: _) => pyStr x
      | _ => "No response generated"
  | _ => "No response generated"

/-- The bodies on which every dict lookup along the extraction path
is applied to an actual JSON object: the top level is an object, its
aiRecord value (when present) is an object, and that object's
aiRecordDetail value (when present) is an object. -/
def wellTypedBody (body : Json) : Bool :=
  match body with
  | .obj fields =>
      match ((fields.find? (fun p => p.1 == "aiRecord")).map (fun p => p.2)).getD (.obj []) with
      | .obj inner =>
          match ((inner.find? (fun p => p.1 == "aiRecordDetail")).map (fun p => p.2)).getD (.obj []) with
          | .obj _ => true
          | _ => false
      | _ => false
  | _ => false

/-- Whether an upstream outcome of the standard-library server is a
failure. -/
def SimpleUpstream.isFailure : SimpleUpstream → Bool
  | .ok200 _ => false
  | _ => true

/-- The fallback content string that simple_server.py substitutes for
each failing upstream outcome. -/
def simpleFailureText : SimpleUpstream → String
  | .ok200 _ => ""
  | .non200 _ _ => "I\x27m experiencing technical difficulties. Please try again later."
  | .httpErr code _ =>
      "1minAI API is currently unavailable (Error: " ++ toString code
        ++ "). Please check the API configuration."
  | .urlErr _ => "I\x27m currently unable to connect to my AI service. Please try again later."
  | .otherErr _ => "I encountered an unexpected error. Please try again later."

/-- Number of newline characters in a string. -/
def newlineCount (s : String) : Nat := s.data.count '\n'

/-- Decidable equality of Except results, used to evaluate the
embedding on concrete inputs. -/
instance {ε α : Type} [DecidableEq ε] [DecidableEq α] : DecidableEq (Except ε α) := fun x y =>
  match x, y with
  | .ok a, .ok b =>
      if h : a = b then isTrue (by rw [h])
      else isFalse (fun hc => h (by cases hc; rfl))
  | .ok _, .error _ => isFalse (fun hc => by cases hc)
  | .error _, .ok _ => isFalse (fun hc => by cases hc)
  | .error e, .error f =>
      if h : e = f then isTrue (by rw [h])
      else isFalse (fun hc => h (by cases hc; rfl))

/-- Newline counting distributes over string append. -/
theorem newlineCount_append (a b : String) :
    newlineCount (a ++ b) = newlineCount a + newlineCount b := by
  simp [newlineCount, String.data_append, List.count_append]

/-- A rendered message line has as many newlines as its content: the
three role labels contain none. -/
theorem newlineCount_renderMessage (m : ChatMessage) :
    newlineCount (renderMessage m) = newlineCount m.content := by
  unfold renderMessage
  split
  · rw [newlineCount_append, show newlineCount "System: " = 0 from by decide, Nat.zero_add]
  · split
    · rw [newlineCount_append, show newlineCount "Assistant: " = 0 from by decide, Nat.zero_add]
    · rw [newlineCount_append, show newlineCount "User: " = 0 from by decide, Nat.zero_add]

/-- Newline count of a blank-line join of newline-free parts: two
newlines per separator. -/
theorem newlineCount_joinSep (parts : List String)
    (h : ∀ p ∈ parts, newlineCount p = 0) (hne : parts ≠ []) :
    newlineCount (joinSep "\n\n" parts) = 2 * parts.length - 2 := by
  match parts with
  | [x] =>
      have hx := h x (List.mem_singleton.mpr rfl)
      simp [joinSep, hx]
  | x :: y :: ys =>
      have hx := h x (List.mem_cons_self x _)
      have hrec := newlineCount_joinSep (y :: ys)
        (fun p hp => h p (List.mem_cons_of_mem x hp)) (by simp)
      rw [joinSep, newlineCount_append, newlineCount_append, hx, hrec]
      have hsep : newlineCount "\n\n" = 2 := by decide
      rw [hsep]
      simp only [List.length_cons]
      omega

/-- Lookup with default on an association list whose keys avoid the
requested one yields the default. -/
theorem tableGetD_eq_of_not_mem (table : List (String × String)) (m dflt : String)
    (hm : m ∉ table.map Prod.fst) : tableGetD table m dflt = dflt := by
  unfold tableGetD
  have h : table.find? (fun p => p.1 == m) = none := by
    rw [List.find?_eq_none]
    intro x hx
    simp only [beq_iff_eq]
    intro he
    exact hm (he ▸ List.mem_map_of_mem Prod.fst hx)
  rw [h]
  rfl

/-- With the credential present, the standard-library
make_1minai_request never raises: every upstream outcome is converted
into a content string. -/
theorem simple_make_total (key : String) (messages : List SimpleMsg) (model : String)
    (sup : SimpleUpstream) :
    ∃ t, simple_make_1minai_request (some key) messages model sup = .ok t := by
  cases sup with
  | ok200 body =>
      cases hext : extractResponseText body with
      | ok t => exact ⟨t, by simp [simple_make_1minai_request, hext]⟩
      | error e =>
          exact ⟨"I encountered an unexpected error. Please try again later.",
            by simp [simple_make_1minai_request, hext]⟩
  | non200 s t =>
      exact ⟨"I\x27m experiencing technical difficulties. Please try again later.",
        by simp [simple_make_1minai_request]⟩
  | httpErr c b =>
      exact ⟨"1minAI API is currently unavailable (Error: " ++ toString c
          ++ "). Please check the API configuration.",
        by simp [simple_make_1minai_request]⟩
  | urlErr m =>
      exact ⟨"I\x27m currently unable to connect to my AI service. Please try again later.",
        by simp [simple_make_1minai_request]⟩
  | otherErr m =>
      exact ⟨"I encountered an unexpected error. Please try again later.",
        by simp [simple_make_1minai_request]⟩

/-- Every response body emitted by the standard-library POST handler
carries exactly one assistant choice, whatever the credential,
request, clock and upstream outcome. -/
theorem simple_do_POST_single_choice (apiKey : Option String) (req : SimpleRequest)
    (now : Nat) (sup : SimpleUpstream) :
    ∃ c, (simple_do_POST apiKey req now sup).2.choices = [c] ∧
      c.message.role = "assistant" ∧ c.index = 0 ∧ c.finish_reason = "stop" := by
  rcases req with ⟨msgs, mdl⟩
  cases msgs with
  | nil =>
      refine ⟨{ index := 0
                message := { role := "assistant"
                             content := "I apologize, but I encountered an error: "
                               ++ "Messages array is required" ++ ". Please try again." }
                finish_reason := "stop" }, ?_, rfl, rfl, rfl⟩
      simp [simple_do_POST]
  | cons m rest =>
      cases hmk : simple_make_1minai_request apiKey (m :: rest) (mdl.getD "gemini-2.0-flash-lite") sup with
      | ok t =>
          refine ⟨{ index := 0
                    message := { role := "assistant", content := t }
                    finish_reason := "stop" }, ?_, rfl, rfl, rfl⟩
          simp [simple_do_POST, hmk]
      | error e =>
          refine ⟨{ index := 0
                    message := { role := "assistant"
                                 content := "I apologize, but I encountered an error: "
                                   ++ e ++ ". Please try again." }
                    finish_reason := "stop" }, ?_, rfl, rfl, rfl⟩
          simp [simple_do_POST, hmk]

/-- Claim C3: model-name resolution is a pure lookup in the static
alias table with default fallback, in both servers: every key of a
table resolves to its mapped value (in particular gpt-4o to gpt-4o),
every absent name resolves to the fixed default
gemini-2.0-flash-lite (in particular unknown-model-xyz), and
resolution is total, never failing. -/
theorem C3_model_resolution :
    (∀ p ∈ model_mapping, mappedModel p.1 = p.2) ∧
    (∀ m, m ∉ model_mapping.map Prod.fst → mappedModel m = "gemini-2.0-flash-lite") ∧
    (∀ p ∈ model_mapping_simple, mappedModelSimple p.1 = p.2) ∧
    (∀ m, m ∉ model_mapping_simple.map Prod.fst →
      mappedModelSimple m = "gemini-2.0-flash-lite") ∧
    mappedModel "gpt-4o" = "gpt-4o" ∧ mappedModelSimple "gpt-4o" = "gpt-4o" ∧
    mappedModel "unknown-model-xyz" = "gemini-2.0-flash-lite" ∧
    mappedModelSimple "unknown-model-xyz" = "gemini-2.0-flash-lite" := by
  refine ⟨by decide, ?_, by decide, ?_, by decide, by decide, by decide, by decide⟩
  · intro m hm
    exact tableGetD_eq_of_not_mem _ _ _ hm
  · intro m hm
    exact tableGetD_eq_of_not_mem _ _ _ hm

/-- Witness for C3 at concrete inputs: a present alias resolves to
its value and an absent one to the default. -/
theorem C3_model_resolution_witness :
    mappedModel "1minai-claude-3-haiku" = "claude-3-haiku" ∧
    mappedModel "totally-unknown" = "gemini-2.0-flash-lite" :=
  ⟨C3_model_resolution.1 ("1minai-claude-3-haiku", "claude-3-haiku") (by decide),
   C3_model_resolution.2.1 "totally-unknown" (by decide)⟩

/-- Counterexample to claim C9 as stated: two calls to the models
listing under the same configuration but at different clock readings
return lists differing field for field, because every entry embeds
the call-time created stamp. -/
theorem C9_counterexample :
    list_models (some "k") 100 ≠ list_models (some "k") 200 ∧
    simple_models_data 100 ≠ simple_models_data 200 := by
  constructor <;> decide

/-- Claim C9 as amended: with an unchanged configuration, repeated
calls to the models listing agree in length, order and every field
except created, which always equals the clock reading of the call;
calls made at an equal clock reading return identical lists. -/
theorem C9_models_static_up_to_timestamp (apiKey : Option String) (t1 t2 : Nat) :
    (list_models apiKey t1).map stripCreated = (list_models apiKey t2).map stripCreated ∧
    (list_models apiKey t1).length = (list_models apiKey t2).length ∧
    ((list_models apiKey t1).all (fun e => e.created == t1)) = true ∧
    (simple_models_data t1).map stripCreated = (simple_models_data t2).map stripCreated ∧
    ((simple_models_data t1).all (fun e => e.created == t1)) = true ∧
    (t1 = t2 → list_models apiKey t1 = list_models apiKey t2) := by
  cases apiKey <;>
    exact ⟨rfl, rfl, by simp [list_models, get_1minai_models], rfl,
      by simp [simple_models_data], fun h => by rw [h]⟩

/-- Witness for C9 as amended at concrete clock readings. -/
theorem C9_models_witness :
    (list_models (some "k") 100).map stripCreated
      = (list_models (some "k") 200).map stripCreated :=
  (C9_models_static_up_to_timestamp (some "k") 100 200).1

/-- Claim C10: in the standard-library server a message lacking the
role key renders with the User label, a message lacking the content
key has empty content contributing zero tokens, and such partially
formed messages never make the handler reject the request: with the
credential present and a non-empty message list the response status
is 200 for every upstream outcome. -/
theorem C10_partial_message_defaults (c : String) (r : Option String)
    (key : String) (msgs : List SimpleMsg) (mdl : Option String) (now : Nat)
    (sup : SimpleUpstream) (hne : msgs ≠ []) :
    renderSimpleMessage { role := none, content := some c } = "User: " ++ c ∧
    renderSimpleMessage { role := none, content := none } = "User: " ∧
    countTokens (simpleContent { role := r, content := none }) = 0 ∧
    (simple_do_POST (some key) { messages := msgs, model := mdl } now sup).1 = 200 := by
  refine ⟨by simp [renderSimpleMessage, simpleRole, simpleContent], by decide, ?_, ?_⟩
  · show countTokens "" = 0
    decide
  rcases List.exists_cons_of_ne_nil hne with ⟨m, rest, rfl⟩
  rcases simple_make_total key (m :: rest) (mdl.getD "gemini-2.0-flash-lite") sup with ⟨t, ht⟩
  simp [simple_do_POST, ht]

/-- Witness for C10 at a concrete partially formed request. -/
theorem C10_partial_message_defaults_witness :
    (simple_do_POST (some "k")
      { messages := [{ role := none, content := none }], model := none } 7
      (.ok200 (Json.obj []))).1 = 200 :=
  (C10_partial_message_defaults "x" none "k" [{ role := none, content := none }]
    none 7 (.ok200 (Json.obj [])) (by decide)).2.2.2

/-- Counterexample to claim C1 as stated: the prompt's line count
does not equal the message count.  A single message whose content
holds a newline yields a two-line prompt, and two newline-free
messages yield three lines because the separator itself is a blank
line. -/
theorem C1_counterexample :
    lineCount (buildPrompt [{ role := "user", content := "a\nb" }]) ≠ 1 ∧
    lineCount (buildPrompt [{ role := "user", content := "a" },
      { role := "user", content := "b" }]) ≠ 2 := by
  constructor <;> decide

/-- Claim C1 as amended: for every non-empty message sequence, each
message renders as the line Role-Label: content with label System,
Assistant, or User (for user and every unrecognized role), the
prompt is the rendered messages joined in input order by the
blank-line separator, the number of rendered messages equals the
message count, and, when no content holds a newline character, the
prompt's line count is 2n-1 (the n rendered lines interleaved with
n-1 blank lines), not n. -/
theorem C1_prompt_structure (messages : List ChatMessage) (hne : messages ≠ [])
    (hnl : ∀ m ∈ messages, newlineCount m.content = 0) :
    buildPrompt messages = joinSep "\n\n" (messages.map renderMessage) ∧
    (messages.map renderMessage).length = messages.length ∧
    (∀ m ∈ messages,
      (m.role = "system" → renderMessage m = "System: " ++ m.content) ∧
      (m.role = "assistant" → renderMessage m = "Assistant: " ++ m.content) ∧
      (m.role ≠ "system" → m.role ≠ "assistant" →
        renderMessage m = "User: " ++ m.content)) ∧
    lineCount (buildPrompt messages) = 2 * messages.length - 1 := by
  refine ⟨rfl, by simp, ?_, ?_⟩
  · intro m _
    refine ⟨fun h => ?_, fun h => ?_, fun h1 h2 => ?_⟩
    · simp [renderMessage, h]
    · simp [renderMessage, h]
    · simp [renderMessage, h1, h2]
  · have hparts : ∀ p ∈ messages.map renderMessage, newlineCount p = 0 := by
      intro p hp
      rcases List.mem_map.mp hp with ⟨m, hm, rfl⟩
      rw [newlineCount_renderMessage]
      exact hnl m hm
    have hne2 : messages.map renderMessage ≠ [] := by simpa using hne
    have hcount := newlineCount_joinSep _ hparts hne2
    have hlen : 0 < messages.length := List.length_pos.mpr hne
    have hlc : lineCount (buildPrompt messages)
        = newlineCount (buildPrompt messages) + 1 := rfl
    rw [hlc, buildPrompt, hcount, List.length_map]
    omega

/-- Witness for C1 as amended at a concrete two-message
conversation: the prompt has three lines. -/
theorem C1_prompt_structure_witness :
    lineCount (buildPrompt [{ role := "system", content := "be nice" },
      { role := "user", content := "hi" }]) = 2 * 2 - 1 :=
  (C1_prompt_structure
    [{ role := "system", content := "be nice" }, { role := "user", content := "hi" }]
    (by decide) (by decide)).2.2.2

/-- Counterexample to claim C2 as stated: on the body in which
aiRecord is the number 5 the extraction raises (a number has no get
attribute) instead of producing the literal, and the
standard-library server answers with its generic internal-error
text, not with No response generated. -/
theorem C2_counterexample :
    extractResponseText (Json.obj [("aiRecord", Json.num 5)])
      ≠ Except.ok "No response generated" ∧
    simple_make_1minai_request (some "k")
      [{ role := some "user", content := some "hi" }] "gpt-4o"
      (.ok200 (Json.obj [("aiRecord", Json.num 5)]))
      = Except.ok "I encountered an unexpected error. Please try again later." := by
  constructor <;> decide

/-- Claim C2 as amended: on every body whose top level and whose
present path intermediates are JSON objects, the normalizer's
content equals the spec-described value: the string form of the
first element when the resultObject path yields a non-empty
sequence, the literal No response generated otherwise, with missing
intermediates treated as empty rather than as errors. -/
theorem C2_normalizer_refines_spec (body : Json) (h : wellTypedBody body = true) :
    extractResponseText body = Except.ok (specContent body) := by
  cases body with
  | null => simp [wellTypedBody] at h
  | bool b => simp [wellTypedBody] at h
  | num n => simp [wellTypedBody] at h
  | str s => simp [wellTypedBody] at h
  | arr xs => simp [wellTypedBody] at h
  | obj fields =>
    simp only [wellTypedBody] at h
    cases hA : ((fields.find? (fun p => p.1 == "aiRecord")).map (fun p => p.2)).getD (.obj []) with
    | obj inner =>
        simp only [hA] at h
        cases hB : ((inner.find? (fun p => p.1 == "aiRecordDetail")).map (fun p => p.2)).getD (.obj []) with
        | obj detail =>
            simp only [extractResponseText, dictGet, hA, hB,
              specContent, specFieldD, bind, Except.bind]
            cases hC : ((detail.find? (fun p => p.1 == "resultObject")).map (fun p => p.2)).getD (.arr []) with
            | arr xs => cases xs <;> rfl
            | null => rfl
            | bool b => rfl
            | num n => rfl
            | str s => rfl
            | obj kvs => rfl
        | null => simp [hB] at h
        | bool b => simp [hB] at h
        | num n => simp [hB] at h
        | str s => simp [hB] at h
        | arr xs => simp [hB] at h
    | null => simp [hA] at h
    | bool b => simp [hA] at h
    | num n => simp [hA] at h
    | str s => simp [hA] at h
    | arr xs => simp [hA] at h

/-- Witness for C2 as amended: the empty body yields the literal and
a fully populated body yields its first result string. -/
theorem C2_normalizer_witness :
    extractResponseText (Json.obj []) = Except.ok "No response generated" ∧
    extractResponseText (Json.obj [("aiRecord", Json.obj [("aiRecordDetail",
      Json.obj [("resultObject", Json.arr [Json.str "Hi there"])])])])
      = Except.ok "Hi there" := by
  constructor
  · have h := C2_normalizer_refines_spec (Json.obj []) (by decide)
    rw [h]
    decide
  · have h := C2_normalizer_refines_spec (Json.obj [("aiRecord", Json.obj [("aiRecordDetail",
      Json.obj [("resultObject", Json.arr [Json.str "Hi there"])])])]) (by decide)
    rw [h]
    decide

/-- Every successfully returned body of the FastAPI completions
endpoint as written carries exactly one assistant choice, whatever
the credential, request, clock and upstream outcome. -/
theorem chat_completions_ok_choices (apiKey : Option String) (req : ChatCompletionRequest)
    (now : Nat) (up : UpstreamResult) (r : ChatCompletionResponse)
    (h : chat_completions apiKey req now up = Except.ok r) :
    ∃ c, r.choices = [c] ∧ c.message.role = "assistant" ∧
      c.index = 0 ∧ c.finish_reason = "stop" := by
  cases apiKey with
  | none => simp [chat_completions, chat_completions_core] at h
  | some key =>
    cases up with
    | success body =>
        cases hext : extractResponseText body with
        | ok t =>
            simp [chat_completions, chat_completions_core, make_1minai_request, hext] at h
            subst h
            exact ⟨_, rfl, rfl, rfl, rfl⟩
        | error e =>
            simp [chat_completions, chat_completions_core, make_1minai_request, hext] at h
            subst h
            exact ⟨_, rfl, rfl, rfl, rfl⟩
    | httpError s t =>
        simp [chat_completions, chat_completions_core, make_1minai_request] at h
        subst h
        exact ⟨_, rfl, rfl, rfl, rfl⟩
    | connError msg =>
        simp [chat_completions, chat_completions_core, make_1minai_request] at h
        subst h
        exact ⟨_, rfl, rfl, rfl, rfl⟩
    | otherError msg =>
        simp [chat_completions, chat_completions_core, make_1minai_request] at h
        subst h
        exact ⟨_, rfl, rfl, rfl, rfl⟩

/-- Every successfully returned body of the FastAPI completions
endpoint as it actually runs carries exactly one assistant choice:
with a credential present the handler always takes the second
fallback for the NameError. -/
theorem chat_completions_run_ok_choices (apiKey : Option String)
    (req : ChatCompletionRequest) (now : Nat) (r : ChatCompletionResponse)
    (h : chat_completions_run apiKey req now = Except.ok r) :
    ∃ c, r.choices = [c] ∧ c.message.role = "assistant" ∧
      c.index = 0 ∧ c.finish_reason = "stop" := by
  cases apiKey with
  | none => simp [chat_completions_run, chat_completions_core, make_1minai_request_run] at h
  | some key =>
      simp [chat_completions_run, chat_completions_core, make_1minai_request_run] at h
      subst h
      exact ⟨_, rfl, rfl, rfl, rfl⟩

/-- Counterexample to claim C4 as stated: in the standard-library
server an upstream connection failure is answered with usage counts
computed by whitespace splitting of the substituted text, not with
the placeholder counts 10/20/30. -/
theorem C4_counterexample :
    (simple_do_POST (some "k")
      { messages := [{ role := some "user", content := some "hello" }], model := none }
      7 (.urlErr "down")).2.usage
      = { prompt_tokens := 1, completion_tokens := 13, total_tokens := 14 } ∧
    (simple_do_POST (some "k")
      { messages := [{ role := some "user", content := some "hello" }], model := none }
      7 (.urlErr "down")).2.usage
      ≠ { prompt_tokens := 10, completion_tokens := 20, total_tokens := 30 } := by
  constructor <;> decide

/-- Claim C4 as amended: in the real FastAPI server the upstream
call is never attempted (the aiohttp client name is unbound), so
every credential-present request fails internally and is still
answered in-shape, with exactly one choice whose non-empty content
embeds the failure detail (the NameError text) and with placeholder
usage 10/20/30 - the raw failure is never propagated; the
standard-library server answers upstream failures with a status-200
in-shape response with one choice of non-empty human-readable
content, but its usage is computed by whitespace counting, not
10/20/30. -/
theorem C4_upstream_failure_fallback (key : String) (req : ChatCompletionRequest)
    (sreq : SimpleRequest) (now : Nat) (sup : SimpleUpstream)
    (hsup : sup.isFailure = true) (hm : sreq.messages ≠ []) :
    chat_completions_run (some key) req now = Except.ok
      { id := "chatcmpl-" ++ toString now
        object := "chat.completion"
        created := now
        model := req.model
        choices := [{ index := 0
                      message := { role := "assistant"
                                   content := "Error processing request: "
                                     ++ "name \x27aiohttp\x27 is not defined" }
                      finish_reason := "stop" }]
        usage := { prompt_tokens := 10, completion_tokens := 20, total_tokens := 30 } } ∧
    0 < ("Error processing request: " ++ "name \x27aiohttp\x27 is not defined").length ∧
    simple_do_POST (some key) sreq now sup = (200,
      { id := "chatcmpl-" ++ toString now
        object := "chat.completion"
        created := now
        model := sreq.model.getD "gemini-2.0-flash-lite"
        choices := [{ index := 0
                      message := { role := "assistant", content := simpleFailureText sup }
                      finish_reason := "stop" }]
        usage := { prompt_tokens := promptTokensSum sreq.messages
                   completion_tokens := countTokens (simpleFailureText sup)
                   total_tokens := promptTokensSum sreq.messages
                     + countTokens (simpleFailureText sup) } }) ∧
    0 < (simpleFailureText sup).length := by
  refine ⟨?_, by decide, ?_, ?_⟩
  · simp [chat_completions_run, chat_completions_core, make_1minai_request_run]
  · have hmk : simple_make_1minai_request (some key) sreq.messages
        (sreq.model.getD "gemini-2.0-flash-lite") sup = .ok (simpleFailureText sup) := by
      cases sup with
      | ok200 _ => simp [SimpleUpstream.isFailure] at hsup
      | non200 s t => simp [simple_make_1minai_request, simpleFailureText]
      | httpErr c b => simp [simple_make_1minai_request, simpleFailureText]
      | urlErr msg => simp [simple_make_1minai_request, simpleFailureText]
      | otherErr msg => simp [simple_make_1minai_request, simpleFailureText]
    rcases List.exists_cons_of_ne_nil hm with ⟨m, rest, hmsgs⟩
    rcases sreq with ⟨msgs, mdl⟩
    simp only at hmsgs
    subst hmsgs
    simp only at hmk
    simp [simple_do_POST, hmk]
  · cases sup with
    | ok200 _ => simp [SimpleUpstream.isFailure] at hsup
    | non200 s t =>
        simp only [simpleFailureText]
        decide
    | httpErr c b =>
        rw [simpleFailureText, String.length_append, String.length_append]
        have h1 : 0 < ("1minAI API is currently unavailable (Error: ").length := by decide
        omega
    | urlErr msg =>
        simp only [simpleFailureText]
        decide
    | otherErr msg =>
        simp only [simpleFailureText]
        decide

/-- Witness for C4 as amended at a concrete failing upstream call:
the fallback content is non-empty. -/
theorem C4_upstream_failure_witness :
    0 < ("Error processing request: " ++ "name \x27aiohttp\x27 is not defined").length :=
  (C4_upstream_failure_fallback "k"
    { model := "gpt-4o", messages := [{ role := "user", content := "hi" }] }
    { messages := [{ role := some "user", content := some "hi" }], model := none }
    7 (.urlErr "down") rfl (by decide)).2.1

/-- Counterexample to claim C5 as stated: on a successful upstream
round trip the standard-library server reports prompt_tokens as the
token sum over the message contents, which differs from the token
count of the constructed prompt because the role labels are not
counted. -/
theorem C5_counterexample :
    (simple_do_POST (some "k")
      { messages := [{ role := some "user", content := some "hello" }], model := none }
      7 (.ok200 (Json.obj [("aiRecord", Json.obj [("aiRecordDetail",
        Json.obj [("resultObject", Json.arr [Json.str "Hi there"])])])]))).2.usage.prompt_tokens
      = 1 ∧
    countTokens (buildPromptSimple [{ role := some "user", content := some "hello" }]) = 2 ∧
    (simple_do_POST (some "k")
      { messages := [{ role := some "user", content := some "hello" }], model := none }
      7 (.ok200 (Json.obj [("aiRecord", Json.obj [("aiRecordDetail",
        Json.obj [("resultObject", Json.arr [Json.str "Hi there"])])])]))).2.usage.prompt_tokens
      ≠ countTokens (buildPromptSimple [{ role := some "user", content := some "hello" }]) := by
  refine ⟨by decide, by decide, by decide⟩

/-- Claim C5 as amended: on a successful upstream response the
FastAPI server sets prompt_tokens to the whitespace token count of
the constructed prompt, completion_tokens to that of the normalized
content, and total_tokens to their sum; the standard-library server
computes completion_tokens and total_tokens the same way but takes
prompt_tokens as the sum of whitespace token counts of the message
contents alone. -/
theorem C5_usage_on_success (key : String) (messages : List ChatMessage) (model : String)
    (now : Nat) (body : Json) (text : String) (sreq : SimpleRequest)
    (hext : extractResponseText body = Except.ok text) (hm : sreq.messages ≠ []) :
    make_1minai_request (some key) messages model now (.success body) = Except.ok
      { id := "chatcmpl-" ++ toString now
        object := "chat.completion"
        created := now
        model := model
        choices := [{ index := 0
                      message := { role := "assistant", content := text }
                      finish_reason := "stop" }]
        usage := { prompt_tokens := countTokens (buildPrompt messages)
                   completion_tokens := countTokens text
                   total_tokens := countTokens (buildPrompt messages) + countTokens text } } ∧
    simple_do_POST (some key) sreq now (.ok200 body) = (200,
      { id := "chatcmpl-" ++ toString now
        object := "chat.completion"
        created := now
        model := sreq.model.getD "gemini-2.0-flash-lite"
        choices := [{ index := 0
                      message := { role := "assistant", content := text }
                      finish_reason := "stop" }]
        usage := { prompt_tokens := promptTokensSum sreq.messages
                   completion_tokens := countTokens text
                   total_tokens := promptTokensSum sreq.messages + countTokens text } }) := by
  constructor
  · simp [make_1minai_request, hext]
  · rcases List.exists_cons_of_ne_nil hm with ⟨m, rest, hmsgs⟩
    rcases sreq with ⟨msgs, mdl⟩
    simp only at hmsgs
    subst hmsgs
    simp [simple_do_POST, simple_make_1minai_request, hext]

/-- Witness for C5 as amended at a concrete successful round trip. -/
theorem C5_usage_witness :
    make_1minai_request (some "k") [{ role := "user", content := "hi" }] "gpt-4o" 7
      (.success (Json.obj [("aiRecord", Json.obj [("aiRecordDetail",
        Json.obj [("resultObject", Json.arr [Json.str "Hi there"])])])]))
      = Except.ok
      { id := "chatcmpl-7"
        object := "chat.completion"
        created := 7
        model := "gpt-4o"
        choices := [{ index := 0
                      message := { role := "assistant", content := "Hi there" }
                      finish_reason := "stop" }]
        usage := { prompt_tokens := 2, completion_tokens := 2, total_tokens := 4 } } := by
  have h := (C5_usage_on_success "k" [{ role := "user", content := "hi" }] "gpt-4o" 7
    (Json.obj [("aiRecord", Json.obj [("aiRecordDetail",
      Json.obj [("resultObject", Json.arr [Json.str "Hi there"])])])]) "Hi there"
    { messages := [{ role := some "user", content := some "hi" }], model := none }
    (by decide) (by decide)).1
  rw [h]
  decide

/-- Claim C6: every emitted chat-completion body, for every request
and outcome of either server - upstream success, upstream failure,
or internal error, including the second FastAPI fallback that the
running module takes for the NameError from the unbound aiohttp
name - carries exactly one choice, and that choice is an assistant
message whose content is a total string of the embedding (a real
answer or a synthetic error-describing text); the OpenAI shape is
never omitted or malformed. -/
theorem C6_single_choice_invariant (apiKey : Option String) (req : ChatCompletionRequest)
    (now : Nat) (up : UpstreamResult) (r : ChatCompletionResponse)
    (sreq : SimpleRequest) (sup : SimpleUpstream)
    (h : chat_completions apiKey req now up = Except.ok r) :
    (∃ c, r.choices = [c] ∧ c.message.role = "assistant" ∧
      c.index = 0 ∧ c.finish_reason = "stop") ∧
    (∀ r2, chat_completions_run apiKey req now = Except.ok r2 →
      ∃ c, r2.choices = [c] ∧ c.message.role = "assistant" ∧
        c.index = 0 ∧ c.finish_reason = "stop") ∧
    (∃ c, (simple_do_POST apiKey sreq now sup).2.choices = [c] ∧
      c.message.role = "assistant" ∧ c.index = 0 ∧ c.finish_reason = "stop") :=
  ⟨chat_completions_ok_choices apiKey req now up r h,
   fun r2 h2 => chat_completions_run_ok_choices apiKey req now r2 h2,
   simple_do_POST_single_choice apiKey sreq now sup⟩

/-- Witness for C6 at a concrete successful request. -/
theorem C6_single_choice_witness :
    ∃ c, (simple_do_POST (some "k")
      { messages := [{ role := some "user", content := some "hi" }], model := none }
      7 (.ok200 (Json.obj []))).2.choices = [c] ∧
      c.message.role = "assistant" ∧ c.index = 0 ∧ c.finish_reason = "stop" :=
  (C6_single_choice_invariant (some "k")
    { model := "gpt-4o", messages := [{ role := "user", content := "hi" }] }
    7 (.success (Json.obj []))
    { id := "chatcmpl-7"
      object := "chat.completion"
      created := 7
      model := "gpt-4o"
      choices := [{ index := 0
                    message := { role := "assistant", content := "No response generated" }
                    finish_reason := "stop" }]
      usage := { prompt_tokens := 2, completion_tokens := 3, total_tokens := 5 } }
    { messages := [{ role := some "user", content := some "hi" }], model := none }
    (.ok200 (Json.obj [])) (by decide)).2.2

/-- Counterexample to claim C7 as stated: with the credential
present the FastAPI translation accepts an empty messages sequence -
the credential check and payload construction of lines 81-129
complete without any InvalidRequest signal (the failure that then
stops the real request is the NameError of the unbound aiohttp name,
after translation, and the endpoint still answers in-shape) - and in
the minimal server an empty sequence with the credential absent
signals InvalidRequest, not ConfigurationError, because the
emptiness check runs first. -/
theorem C7_counterexample :
    fastapiTranslate (some "k") [] "gpt-4o" = .translated (buildPayload [] "gpt-4o") ∧
    fastapiTranslate (some "k") [] "gpt-4o" ≠ .invalidRequest ∧
    chat_completions_run (some "k") { model := "gpt-4o", messages := [] } 0
      = Except.ok
        { id := "chatcmpl-0"
          object := "chat.completion"
          created := 0
          model := "gpt-4o"
          choices := [{ index := 0
                        message := { role := "assistant"
                                     content := "Error processing request: "
                                       ++ "name \x27aiohttp\x27 is not defined" }
                        finish_reason := "stop" }]
          usage := { prompt_tokens := 10, completion_tokens := 20, total_tokens := 30 } } ∧
    simpleTranslate none { messages := [], model := none } = .invalidRequest := by
  refine ⟨rfl, by decide, by decide, rfl⟩

/-- Claim C7 as amended: the minimal server's translation signals
InvalidRequest exactly on an empty messages sequence (this check
precedes the credential check), signals ConfigurationError exactly
on a non-empty sequence with the credential absent, and succeeds
exactly on a non-empty sequence with the credential present; the
FastAPI translation checks only the credential, never rejecting an
empty sequence. -/
theorem C7_translator_failure_conditions (apiKey : Option String) (req : SimpleRequest)
    (messages : List ChatMessage) (model : String) :
    (simpleTranslate apiKey req = .invalidRequest ↔ req.messages = []) ∧
    (simpleTranslate apiKey req = .configurationError ↔
      (req.messages ≠ [] ∧ apiKey = none)) ∧
    ((simpleTranslate apiKey req).isTranslated = true ↔
      (req.messages ≠ [] ∧ apiKey ≠ none)) ∧
    (fastapiTranslate apiKey messages model = .configurationError ↔ apiKey = none) ∧
    ((fastapiTranslate apiKey messages model).isTranslated = true ↔ apiKey ≠ none) := by
  rcases req with ⟨msgs, mdl⟩
  cases msgs <;> cases apiKey <;>
    simp [simpleTranslate, fastapiTranslate, TranslateOutcome.isTranslated]

/-- Witness for C7 as amended at a concrete request. -/
theorem C7_translator_witness :
    simpleTranslate (some "k")
        { messages := [{ role := some "user", content := some "hi" }], model := none }
      = .invalidRequest
    ↔ ([{ role := some "user", content := some "hi" }] : List SimpleMsg) = [] :=
  (C7_translator_failure_conditions (some "k")
    { messages := [{ role := some "user", content := some "hi" }], model := none }
    [] "gpt-4o").1

/-- Claim C8: with the credential absent, both servers answer every
request with their ConfigurationError response without ever
consulting the upstream outcome (the result is the same whatever
that outcome would have been), and the handlers stay total. -/
theorem C8_missing_credential (req : ChatCompletionRequest) (sreq : SimpleRequest)
    (now : Nat) (up up2 : UpstreamResult) (sup sup2 : SimpleUpstream)
    (hm : sreq.messages ≠ []) :
    chat_completions none req now up
      = Except.error { status_code := 500, detail := "ONEMINAI_API_KEY not configured" } ∧
    chat_completions none req now up = chat_completions none req now up2 ∧
    simple_do_POST none sreq now sup = (500,
      { id := "chatcmpl-" ++ toString now
        object := "chat.completion"
        created := now
        model := sreq.model.getD "gemini-2.0-flash-lite"
        choices := [{ index := 0
                      message := { role := "assistant"
                                   content := "I apologize, but I encountered an error: "
                                     ++ "ONEMINAI_API_KEY not configured" ++ ". Please try again." }
                      finish_reason := "stop" }]
        usage := { prompt_tokens := 10, completion_tokens := 20, total_tokens := 30 } }) ∧
    simple_do_POST none sreq now sup = simple_do_POST none sreq now sup2 := by
  rcases List.exists_cons_of_ne_nil hm with ⟨m, rest, hmsgs⟩
  rcases sreq with ⟨msgs, mdl⟩
  simp only at hmsgs
  subst hmsgs
  exact ⟨rfl, rfl, rfl, rfl⟩

/-- Witness for C8 at a concrete request: the FastAPI handler
propagates the ConfigurationError HTTPException. -/
theorem C8_missing_credential_witness :
    chat_completions none { model := "gpt-4o", messages := [{ role := "user", content := "hi" }] }
        7 (.success (Json.obj []))
      = Except.error { status_code := 500, detail := "ONEMINAI_API_KEY not configured" } :=
  (C8_missing_credential
    { model := "gpt-4o", messages := [{ role := "user", content := "hi" }] }
    { messages := [{ role := some "user", content := some "hi" }], model := none }
    7 (.success (Json.obj [])) (.connError "x") (.ok200 (Json.obj [])) (.urlErr "y")
    (by decide)).1

end Superbot
